import Mathlib

/-!
Verification of the webxr session-orchestration layer.

Shallow embedding of `src/webxr-api/session.rs` and `src/webxr-api/registry.rs`.
Opaque payloads (frames, transforms, views, f32 values, channel tokens) are
modelled by small structures carrying an uninterpreted representation; the
session/registry control flow is transcribed function by function from the
source.  Channels are modelled by explicit message lists: the input side of a
loop is the list of messages it will receive, the output side is the list of
frames it emits, in order.
-/

namespace WebXR

/-- Session mode, from `session.rs` (`enum SessionMode`). -/
inductive SessionMode where
  | Inline
  | ImmersiveVR
  | ImmersiveAR
deriving DecidableEq, Repr

/-- Modelled from the spec: the `Error` enum lives in `error.rs`, which is not
part of the provided sources.  Spec §7 lists the kinds: `UnsupportedFeature(name)`,
`NoMatchingDevice`, `CommunicationError`, `BackendSpecific(detail)`. -/
inductive Error where
  | UnsupportedFeature (name : String)
  | NoMatchingDevice
  | CommunicationError
  | BackendSpecific (detail : String)
deriving DecidableEq, Repr

/-- Session initialization request, from `session.rs` (`struct SessionInit`). -/
structure SessionInit where
  required_features : List String
  optional_features : List String
deriving DecidableEq, Repr

/-- The first loop of `SessionInit::validate` (`session.rs` lines 53-63):
scan the required features in order; a feature that is `"viewer"`, or `"local"`
with a non-Inline mode, is granted by default and skipped; otherwise a feature
absent from `supported` aborts with `UnsupportedFeature`. -/
def validateRequiredLoop (mode : SessionMode) (supported : List String) :
    List String → Except Error Unit
  | [] => .ok ()
  | f :: rest =>
    if f == "viewer" || (f == "local" && mode != SessionMode.Inline) then
      validateRequiredLoop mode supported rest
    else if !(supported.contains f) then
      .error (.UnsupportedFeature f)
    else
      validateRequiredLoop mode supported rest

/-- The second loop of `SessionInit::validate` (`session.rs` lines 64-72):
append to the granted list each optional feature that is default-granted or
supported, in input order. -/
def grantedOptionalLoop (mode : SessionMode) (supported : List String) :
    List String → List String
  | [] => []
  | f :: rest =>
    if f == "viewer" || (f == "local" && mode != SessionMode.Inline)
        || supported.contains f then
      f :: grantedOptionalLoop mode supported rest
    else
      grantedOptionalLoop mode supported rest

/-- `SessionInit::validate` from `session.rs` lines 52-75. -/
def SessionInit.validate (self : SessionInit) (mode : SessionMode)
    (supported : List String) : Except Error (List String) :=
  match validateRequiredLoop mode supported self.required_features with
  | .error e => .error e
  | .ok _ =>
    .ok (self.required_features ++
      grantedOptionalLoop mode supported self.optional_features)

/-- Specification-side predicate (from the spec's words, §4.1): a feature name
is granted by default when it is `"viewer"`, or `"local"` with mode ≠ Inline. -/
def specDefaultGranted (mode : SessionMode) (f : String) : Bool :=
  f == "viewer" || (f == "local" && !(mode == SessionMode.Inline))

theorem validateRequiredLoop_eq_find (mode : SessionMode) (supported : List String) :
    ∀ fs : List String,
      validateRequiredLoop mode supported fs =
        match fs.find? (fun f => !(specDefaultGranted mode f) && !(supported.contains f)) with
        | some f => .error (.UnsupportedFeature f)
        | none => .ok ()
  | [] => rfl
  | f :: rest => by
    simp only [validateRequiredLoop, List.find?, specDefaultGranted, bne]
    cases mode <;> cases hv : f == "viewer" <;> cases hl : f == "local" <;>
      cases hs : supported.contains f <;>
      simp [validateRequiredLoop_eq_find _ supported rest, specDefaultGranted, hv, hl, hs] <;>
      rfl

theorem grantedOptionalLoop_eq_filter (mode : SessionMode) (supported : List String) :
    ∀ fs : List String,
      grantedOptionalLoop mode supported fs =
        fs.filter (fun f => specDefaultGranted mode f || supported.contains f)
  | [] => rfl
  | f :: rest => by
    simp only [grantedOptionalLoop, List.filter, specDefaultGranted, bne]
    cases mode <;> cases hv : f == "viewer" <;> cases hl : f == "local" <;>
      cases hs : supported.contains f <;>
      simp [grantedOptionalLoop_eq_filter _ supported rest, specDefaultGranted, hv, hl, hs] <;>
      rfl

/-- C1: `validate` fails with `UnsupportedFeature f` exactly when `f` is the
first required feature (in input order) that is not supported, not `"viewer"`,
and not `"local"` with a non-Inline mode; otherwise it returns the required
features verbatim followed by exactly those optional features that are
default-granted or supported, in input order. -/
theorem validate_first_unsupported_or_granted (init : SessionInit)
    (mode : SessionMode) (supported : List String) :
    init.validate mode supported =
      match init.required_features.find?
          (fun f => !(specDefaultGranted mode f) && !(supported.contains f)) with
      | some f => .error (.UnsupportedFeature f)
      | none =>
        .ok (init.required_features ++
          init.optional_features.filter
            (fun f => specDefaultGranted mode f || supported.contains f)) := by
  unfold SessionInit.validate
  rw [validateRequiredLoop_eq_find, grantedOptionalLoop_eq_filter]
  cases init.required_features.find?
      (fun f => !(specDefaultGranted mode f) && !(supported.contains f)) <;> rfl

/-- Opaque payload standing for an euclid `TypedRigidTransform3D<f32, _, _>`
(external collaborator type; never inspected by this layer). -/
structure RigidTransform where
  rep : Nat
deriving DecidableEq, Repr

/-- Opaque payload standing for an euclid `TypedTransform3D<f32, _, _>`. -/
structure Transform3D where
  rep : Nat
deriving DecidableEq, Repr

/-- Opaque payload standing for an euclid `TypedRect<i32, Viewport>`. -/
structure Rect where
  rep : Nat
deriving DecidableEq, Repr

/-- One eye's view, from `view.rs` (`struct View<Eye>`): transform, projection
and viewport; the eye phantom parameter is erased. -/
structure View where
  transform : RigidTransform
  projection : Transform3D
  viewport : Rect
deriving DecidableEq, Repr

/-- Mono-or-stereo views, from `view.rs` (`enum Views`). -/
inductive Views where
  | Mono (v : View)
  | Stereo (left : View) (right : View)
deriving DecidableEq, Repr

/-- An euclid `Size2D<i32, Viewport>` (framebuffer resolution). -/
structure Size2D where
  width : Int
  height : Int
deriving DecidableEq, Repr

/-- Opaque payload standing for an `InputSource` (module not in the provided
sources; never inspected here). -/
structure InputSource where
  rep : Nat
deriving DecidableEq, Repr

/-- Environment blend mode, from `session.rs` (`enum EnvironmentBlendMode`). -/
inductive EnvironmentBlendMode where
  | Opaque
  | AlphaBlend
  | Additive
deriving DecidableEq, Repr

/-- Modelled from the spec: a `Frame` (from `frame.rs`, not in the provided
sources) is "one render-ready payload (timing plus device-specific content)";
both halves are opaque to this layer. -/
structure Frame where
  timing : Nat
  content : Nat
deriving DecidableEq, Repr

/-- Token standing for a `Sender<Event>` endpoint (the channel itself is an
external collaborator; only its identity is carried around). -/
structure EventDest where
  channel_id : Nat
deriving DecidableEq, Repr

/-- Opaque payload standing for an `f32` value (clip planes are forwarded
verbatim and never inspected by this layer; the payload is its bit pattern). -/
structure F32 where
  bits : Nat
deriving DecidableEq, Repr

/-- Session identifier, from `session.rs` (`struct SessionId(u32)`); only ever
copied and compared, so the `u32` is modelled as a `Nat`. -/
structure SessionId where
  val : Nat
deriving DecidableEq, Repr

/-- Quitter, from `session.rs` lines 104-113: a handle wrapping a clone of the
session thread's control-channel sender.  The wrapped sender is modelled by
the trace semantics (a quit request is a `Quit` message in the input list), so
the value itself is an opaque token. -/
inductive Quitter where
  | mk
deriving DecidableEq, Repr

/-- Control messages from the content thread to the session thread, from
`session.rs` (`enum SessionMsg`).  The `SetLayers` variant declared in the
enum has no arm in `handle_msg` in this source snapshot and no claim concerns
it, so it is omitted here. -/
inductive SessionMsg where
  | SetEventDest (dest : EventDest)
  | UpdateClipPlanes (near : F32) (far : F32)
  | StartRenderLoop
  | RenderAnimationFrame (sent_time : Nat)
  | Quit
deriving DecidableEq, Repr

/-- Modelled from the spec: the device capability consumed by the session
thread (spec §6; the `DeviceAPI` trait declaration is not in the provided
sources, `device.rs` being a stale revision without it).  A backend device is
a state of type `σ` together with these operations; stateful operations
return the updated device state, and `wait_for_animation_frame` returns
`none` to signal graceful frame exhaustion. -/
structure DeviceAPI (σ : Type) where
  floor_transform : σ → Option RigidTransform
  views : σ → Views
  recommended_framebuffer_resolution : σ → Option Size2D
  initial_inputs : σ → List InputSource
  environment_blend_mode : σ → EnvironmentBlendMode
  granted_features : σ → List String
  set_event_dest : EventDest → σ → σ
  set_quitter : Quitter → σ → σ
  update_clip_planes : F32 → F32 → σ → σ
  wait_for_animation_frame : σ → σ × Option Frame
  render_animation_frame : σ → σ
  quit : σ → σ

/-- Modelled from the spec: frame-update events applied to a `Session` handle
(the defining module is not in the provided sources; constructors are taken
from the match arms of `Session::apply_event`, `session.rs` lines 187-192). -/
inductive FrameUpdateEvent where
  | UpdateViews (views : Views)
  | UpdateFloorTransform (floor : Option RigidTransform)
deriving DecidableEq, Repr

/-- The content-facing session handle, from `session.rs` (`struct Session`).
The `sender` endpoint is modelled by the trace semantics (each sending
operation below returns the message it enqueues); the `layer_manager` field
comes from a module not in the provided sources, is not initialized by this
snapshot's `new_session`, and no claim concerns it, so it is omitted. -/
structure Session where
  floor_transform : Option RigidTransform
  views : Views
  resolution : Option Size2D
  environment_blend_mode : EnvironmentBlendMode
  initial_inputs : List InputSource
  granted_features : List String
  id : SessionId
deriving DecidableEq, Repr

/-- Result of an operation that can panic (`Option::expect`). -/
inductive PanicOr (α : Type) where
  | panicked (msg : String)
  | value (v : α)
deriving DecidableEq, Repr

/-- `Option::expect(msg)`: the value when present, a panic carrying `msg`
otherwise. -/
def expectOption {α : Type} (o : Option α) (msg : String) : PanicOr α :=
  match o with
  | some v => .value v
  | none => .panicked msg

/-- `Session::recommended_framebuffer_resolution`, `session.rs` lines 156-159:
`self.resolution.expect("Inline XR sessions should not construct a framebuffer")`. -/
def Session.recommended_framebuffer_resolution (self : Session) : PanicOr Size2D :=
  expectOption self.resolution "Inline XR sessions should not construct a framebuffer"

/-- `Session::apply_event`, `session.rs` lines 187-192. -/
def Session.apply_event (self : Session) (event : FrameUpdateEvent) : Session :=
  match event with
  | .UpdateViews views => { self with views := views }
  | .UpdateFloorTransform floor => { self with floor_transform := floor }

/-- `Session::start_render_loop`: sends `StartRenderLoop`; the handle itself
is unchanged. -/
def Session.start_render_loop (self : Session) : Session × SessionMsg :=
  (self, .StartRenderLoop)

/-- `Session::update_clip_planes`: sends `UpdateClipPlanes(near, far)`. -/
def Session.update_clip_planes (self : Session) (near far : F32) :
    Session × SessionMsg :=
  (self, .UpdateClipPlanes near far)

/-- `Session::set_event_dest`: sends `SetEventDest(dest)`. -/
def Session.set_event_dest (self : Session) (dest : EventDest) :
    Session × SessionMsg :=
  (self, .SetEventDest dest)

/-- `Session::render_animation_frame`: sends `RenderAnimationFrame(time)`
(with time 0 outside the profiling configuration). -/
def Session.render_animation_frame (self : Session) : Session × SessionMsg :=
  (self, .RenderAnimationFrame 0)

/-- `Session::end_session`: sends `Quit`. -/
def Session.end_session (self : Session) : Session × SessionMsg :=
  (self, .Quit)

/-- Session-thread state, from `session.rs` (`struct SessionThread`).  The
channel endpoints are modelled by the trace semantics; `holds_own_sender`
records the structural fact that the thread stores a clone of its own
control-channel sender (the `sender` field), which keeps the channel alive. -/
structure SessionThread (σ : Type) where
  frame_count : Nat
  running : Bool
  device : σ
  id : SessionId
  holds_own_sender : Bool

/-- `SessionThread::new`, `session.rs` lines 214-234: creates the control
channel (a collaborator operation, assumed to succeed here; its failure would
surface as `CommunicationError`), installs a `Quitter` wrapping a sender
clone on the device, and starts with `frame_count = 0`, `running = true`,
keeping a sender clone in the thread's own state. -/
def SessionThread.new {σ : Type} (dev : DeviceAPI σ) (device : σ)
    (id : SessionId) : SessionThread σ :=
  { frame_count := 0
    running := true
    device := dev.set_quitter Quitter.mk device
    id := id
    holds_own_sender := true }

/-- `SessionThread::new_session`, `session.rs` lines 236-254: snapshot the
device-reported metadata into a `Session` handle. -/
def SessionThread.new_session {σ : Type} (dev : DeviceAPI σ)
    (self : SessionThread σ) : Session :=
  { floor_transform := dev.floor_transform self.device
    views := dev.views self.device
    resolution := dev.recommended_framebuffer_resolution self.device
    initial_inputs := dev.initial_inputs self.device
    environment_blend_mode := dev.environment_blend_mode self.device
    granted_features := dev.granted_features self.device
    id := self.id }

/-- Result of handling one message: the updated thread state, the frames sent
on the output channel while handling it (in order), and the boolean that
`handle_msg` returns (`false` requests loop termination). -/
structure StepResult (σ : Type) where
  state : SessionThread σ
  frames : List Frame
  cont : Bool

/-- `SessionThread::handle_msg`, `session.rs` lines 269-332. -/
def handle_msg {σ : Type} (dev : DeviceAPI σ) (st : SessionThread σ) :
    SessionMsg → StepResult σ
  | .SetEventDest dest =>
    ⟨{ st with device := dev.set_event_dest dest st.device }, [], true⟩
  | .StartRenderLoop =>
    let w := dev.wait_for_animation_frame st.device
    match w.2 with
    | some frame => ⟨{ st with device := w.1 }, [frame], true⟩
    | none => ⟨{ st with device := w.1 }, [], false⟩
  | .UpdateClipPlanes near far =>
    ⟨{ st with device := dev.update_clip_planes near far st.device }, [], true⟩
  | .RenderAnimationFrame _sent_time =>
    let st1 := { st with
      frame_count := st.frame_count + 1
      device := dev.render_animation_frame st.device }
    let w := dev.wait_for_animation_frame st1.device
    match w.2 with
    | some frame => ⟨{ st1 with device := w.1 }, [frame], true⟩
    | none => ⟨{ st1 with device := w.1 }, [], false⟩
  | .Quit =>
    ⟨{ st with device := dev.quit st.device }, [], false⟩

/-- How a `SessionThread::run` loop left off. -/
inductive LoopExit where
  | stopped
  | recvClosed
  | blocked
deriving DecidableEq, Repr

/-- Result of running the dedicated message loop over a list of messages. -/
structure RunResult (σ : Type) where
  state : SessionThread σ
  frames : List Frame
  exit : LoopExit

/-- `SessionThread::run`, `session.rs` lines 256-267, over the finite list of
messages that will ever arrive on the control channel.  `stopped` models the
branch where `handle_msg` returned `false` (run sets `running = false` and
breaks); after the list is exhausted, the blocking `recv` either blocks
forever (`blocked`, when a live sender remains — in particular the thread's
own clone) or fails (`recvClosed`, the bare `break` that leaves `running`
untouched). -/
def runMsgs {σ : Type} (dev : DeviceAPI σ) :
    SessionThread σ → List SessionMsg → RunResult σ
  | st, [] =>
    if st.holds_own_sender then ⟨st, [], .blocked⟩ else ⟨st, [], .recvClosed⟩
  | st, m :: ms =>
    let r := handle_msg dev st m
    if r.cont then
      let rest := runMsgs dev r.state ms
      ⟨rest.state, r.frames ++ rest.frames, rest.exit⟩
    else
      ⟨{ r.state with running := false }, r.frames, .stopped⟩

/-- Result of one `run_one_frame` tick: the updated thread state, the frames
emitted, and the part of the message queue left unconsumed. -/
structure TickResult (σ : Type) where
  state : SessionThread σ
  frames : List Frame
  pending : List SessionMsg

/-- The `while` loop of `MainThreadSession::run_one_frame` for `SessionThread`
(`session.rs` lines 345-364): `fc0` is the `frame_count` read at entry; the
queue holds the messages available to the 5 ms timeout receive, an empty
queue modelling the timeout firing with no message. -/
def rofLoop {σ : Type} (dev : DeviceAPI σ) (fc0 : Nat) :
    List SessionMsg → SessionThread σ → TickResult σ
  | q, st =>
    if fc0 == st.frame_count && st.running then
      match q with
      | [] => ⟨st, [], []⟩
      | m :: ms =>
        let r := handle_msg dev st m
        let st' := { r.state with running := r.cont }
        let rest := rofLoop dev fc0 ms st'
        ⟨rest.state, r.frames ++ rest.frames, rest.pending⟩
    else ⟨st, [], q⟩

/-- `MainThreadSession::run_one_frame` for `SessionThread`, `session.rs`
lines 345-364. -/
def SessionThread.run_one_frame {σ : Type} (dev : DeviceAPI σ)
    (st : SessionThread σ) (q : List SessionMsg) : TickResult σ :=
  rofLoop dev st.frame_count q st

/-- `MainThreadSession::running` for `SessionThread`, `session.rs` lines 366-368. -/
def SessionThread.is_running {σ : Type} (st : SessionThread σ) : Bool :=
  st.running

/-- Modelled from the spec: the `Discovery` capability consumed by the
registry (spec §6).  A backend's `request_session` is modelled as a function
of the requested mode (the `SessionBuilder` it receives is a short-lived
factory whose session-registration side effect is outside the registry loop
being verified); `supports_session` is pure. -/
structure Discovery where
  supports_session : SessionMode → Bool
  request_session : SessionMode → Except Error Session

/-- Modelled from the spec: opaque mock-device initialization payload
(`MockDeviceInit`, from a module not in the provided sources). -/
structure MockDeviceInit where
  rep : Nat
deriving DecidableEq, Repr

/-- Token standing for the `Sender<MockDeviceMsg>` control endpoint handed
back by a successful `simulate_device_connection` (the channel itself is a
collaborator; only the fact that a sender is returned matters here). -/
inductive MockSender where
  | mk
deriving DecidableEq, Repr

/-- Modelled from the spec: the mock-discovery capability (spec §6):
`simulate_device_connection(init, control_receiver) -> Result<Discovery, Error>`;
the control receiver is the other end of the returned sender and is abstracted
away. -/
structure MockDiscovery where
  simulate_device_connection : MockDeviceInit → Except Error Discovery

/-- Cross-thread registry requests, from `registry.rs` (`enum RegistryMsg`).
The boxed callback each variant carries is modelled by returning the response
it would be invoked with (see `RegistryResponse`). -/
inductive RegistryMsg where
  | RequestSession (mode : SessionMode)
  | SupportsSession (mode : SessionMode)
  | SimulateDeviceConnection (init : MockDeviceInit)

/-- The value passed to the callback of the corresponding `RegistryMsg`. -/
inductive RegistryResponse where
  | supports (result : Except Error Unit)
  | session (result : Except Error Session)
  | mock (result : Except Error MockSender)

/-- The stepping interface of a `Box<dyn MainThreadSession>` entry in the
registry's session list: `run_one_frame` advances the session's state,
`running` reports whether it is still live.  `τ` is the session's state
type. -/
structure MTSessionAPI (τ : Type) where
  run_one_frame : τ → τ
  running : τ → Bool

/-- Registry state, from `registry.rs` (`struct MainThreadRegistry`).  The
`gl` handle and the channel endpoints are collaborators: the receiver side is
modelled by the explicit queue passed to `run_one_frame`. -/
structure MainThreadRegistry (τ : Type) where
  discoveries : List Discovery
  sessions : List τ
  mocks : List MockDiscovery

/-- The loop of `MainThreadRegistry::supports_session`, `registry.rs`
lines 146-153. -/
def supportsLoop : List Discovery → SessionMode → Except Error Unit
  | [], _ => .error .NoMatchingDevice
  | d :: ds, mode =>
    if d.supports_session mode then .ok () else supportsLoop ds mode

/-- The loop of `MainThreadRegistry::request_session`, `registry.rs`
lines 155-163: try each discovery in order with a fresh `SessionBuilder`,
return the first `Ok` session, fall through past any failure, and report
`NoMatchingDevice` after exhausting the list. -/
def requestLoop : List Discovery → SessionMode → Except Error Session
  | [], _ => .error .NoMatchingDevice
  | d :: ds, mode =>
    match d.request_session mode with
    | .ok session => .ok session
    | .error _ => requestLoop ds mode

/-- The loop of `MainThreadRegistry::simulate_device_connection`,
`registry.rs` lines 165-177: try each mock in order (creating a fresh control
channel per attempt — a collaborator operation assumed to succeed); on the
first success insert the produced discovery at index 0 of the discovery list
(`Vec::insert(0, _)`, i.e. prepend) and return the control sender; otherwise
report `NoMatchingDevice` with the discovery list unchanged. -/
def simulateLoop : List MockDiscovery → MockDeviceInit → List Discovery →
    Except Error MockSender × List Discovery
  | [], _, ds => (.error .NoMatchingDevice, ds)
  | m :: ms, init, ds =>
    match m.simulate_device_connection init with
    | .ok discovery => (.ok MockSender.mk, discovery :: ds)
    | .error _ => simulateLoop ms init ds

/-- `MainThreadRegistry::request_session` on the registry state. -/
def MainThreadRegistry.request_session {τ : Type} (r : MainThreadRegistry τ)
    (mode : SessionMode) : Except Error Session :=
  requestLoop r.discoveries mode

/-- `MainThreadRegistry::simulate_device_connection` on the registry state. -/
def MainThreadRegistry.simulate_device_connection {τ : Type}
    (r : MainThreadRegistry τ) (init : MockDeviceInit) :
    Except Error MockSender × MainThreadRegistry τ :=
  let res := simulateLoop r.mocks init r.discoveries
  (res.1, { r with discoveries := res.2 })

/-- `MainThreadRegistry::handle_msg`, `registry.rs` lines 132-144: dispatch
one request and produce the value its callback is invoked with. -/
def MainThreadRegistry.handle_msg {τ : Type} (r : MainThreadRegistry τ) :
    RegistryMsg → MainThreadRegistry τ × RegistryResponse
  | .SupportsSession mode => (r, .supports (supportsLoop r.discoveries mode))
  | .RequestSession mode => (r, .session (requestLoop r.discoveries mode))
  | .SimulateDeviceConnection init =>
    let res := r.simulate_device_connection init
    (res.2, .mock res.1)

/-- The `while let Ok(msg) = self.receiver.try_recv()` drain loop at the top
of `MainThreadRegistry::run_one_frame` (`registry.rs` lines 119-121), over
the queue of pending request messages. -/
def drainList {τ : Type} : MainThreadRegistry τ → List RegistryMsg →
    MainThreadRegistry τ × List RegistryResponse
  | r, [] => (r, [])
  | r, m :: ms =>
    let step := r.handle_msg m
    let rest := drainList step.1 ms
    (rest.1, step.2 :: rest.2)

/-- The `for session in &mut self.sessions { session.run_one_frame(); }` loop
(`registry.rs` lines 122-124). -/
def stepSessions {τ : Type} (api : MTSessionAPI τ) : List τ → List τ
  | [] => []
  | s :: ss => api.run_one_frame s :: stepSessions api ss

/-- `Vec::retain` (`registry.rs` line 125): keep, in order, exactly the
elements on which the predicate holds. -/
def retainList {τ : Type} (keep : τ → Bool) : List τ → List τ
  | [] => []
  | s :: ss => if keep s then s :: retainList keep ss else retainList keep ss

/-- `MainThreadRegistry::run_one_frame`, `registry.rs` lines 118-126: drain
and dispatch all pending requests, step every registered session once, then
retain only the sessions still running. -/
def MainThreadRegistry.run_one_frame {τ : Type} (api : MTSessionAPI τ)
    (r : MainThreadRegistry τ) (queue : List RegistryMsg) :
    MainThreadRegistry τ × List RegistryResponse :=
  let drained := drainList r queue
  let stepped := stepSessions api drained.1.sessions
  let retained := retainList (fun s => api.running s) stepped
  ({ drained.1 with sessions := retained }, drained.2)

/-- A trivial device over the unit state, used to instantiate theorems at
concrete inputs. -/
def unitDevice : DeviceAPI Unit :=
  { floor_transform := fun _ => none
    views := fun _ => Views.Mono ⟨⟨0⟩, ⟨0⟩, ⟨0⟩⟩
    recommended_framebuffer_resolution := fun _ => none
    initial_inputs := fun _ => []
    environment_blend_mode := fun _ => EnvironmentBlendMode.Opaque
    granted_features := fun _ => []
    set_event_dest := fun _ s => s
    set_quitter := fun _ s => s
    update_clip_planes := fun _ _ s => s
    wait_for_animation_frame := fun s => (s, some ⟨0, 0⟩)
    render_animation_frame := fun s => s
    quit := fun s => s }

/-- A concrete session value for instantiating theorems. -/
def sampleSession : Session :=
  { floor_transform := none
    views := Views.Mono ⟨⟨0⟩, ⟨0⟩, ⟨0⟩⟩
    resolution := none
    environment_blend_mode := EnvironmentBlendMode.Opaque
    initial_inputs := []
    granted_features := ["viewer"]
    id := ⟨0⟩ }

/-- A discovery that refuses every request. -/
def failDiscovery : Discovery :=
  { supports_session := fun _ => false
    request_session := fun _ => .error .NoMatchingDevice }

/-- A discovery that satisfies every request with `sampleSession`. -/
def okDiscovery : Discovery :=
  { supports_session := fun _ => true
    request_session := fun _ => .ok sampleSession }

/-- A mock discovery that refuses every simulated connection. -/
def failMock : MockDiscovery :=
  { simulate_device_connection := fun _ => .error .NoMatchingDevice }

/-- A mock discovery that produces `okDiscovery`. -/
def okMock : MockDiscovery :=
  { simulate_device_connection := fun _ => .ok okDiscovery }

theorem handle_msg_frame_count {σ : Type} (dev : DeviceAPI σ) (st : SessionThread σ) :
    ∀ m : SessionMsg,
      (handle_msg dev st m).state.frame_count = st.frame_count ∨
      (handle_msg dev st m).state.frame_count = st.frame_count + 1
  | .SetEventDest _ => .inl rfl
  | .UpdateClipPlanes _ _ => .inl rfl
  | .Quit => .inl rfl
  | .StartRenderLoop => by
    simp only [handle_msg]
    cases (dev.wait_for_animation_frame st.device).2 <;> simp
  | .RenderAnimationFrame _ => by
    simp only [handle_msg]
    cases (dev.wait_for_animation_frame (dev.render_animation_frame st.device)).2 <;> simp

theorem handle_msg_holds {σ : Type} (dev : DeviceAPI σ) (st : SessionThread σ) :
    ∀ m : SessionMsg,
      (handle_msg dev st m).state.holds_own_sender = st.holds_own_sender
  | .SetEventDest _ => rfl
  | .UpdateClipPlanes _ _ => rfl
  | .Quit => rfl
  | .StartRenderLoop => by
    simp only [handle_msg]
    cases (dev.wait_for_animation_frame st.device).2 <;> simp
  | .RenderAnimationFrame _ => by
    simp only [handle_msg]
    cases (dev.wait_for_animation_frame (dev.render_animation_frame st.device)).2 <;> simp

theorem runMsgs_cons_frames {σ : Type} (dev : DeviceAPI σ) (st : SessionThread σ)
    (m : SessionMsg) (ms : List SessionMsg) :
    (runMsgs dev st (m :: ms)).frames =
      (handle_msg dev st m).frames ++
        (if (handle_msg dev st m).cont then
          (runMsgs dev (handle_msg dev st m).state ms).frames
        else []) := by
  simp only [runMsgs]
  cases h : (handle_msg dev st m).cont <;> simp [h]

/-- C2: handling `RenderAnimationFrame` increments `frame_count` by exactly
one, leaves the device in the state reached by `render_animation_frame`
followed by one `wait_for_animation_frame` call, emits on the output channel
exactly the frame that wait yielded (and nothing when it yielded none, in
which case the loop is asked to stop), and in a run those frames precede
every frame produced by subsequent messages. -/
theorem handle_raf_renders_then_waits_and_emits {σ : Type} (dev : DeviceAPI σ)
    (st : SessionThread σ) (ts : Nat) (ms : List SessionMsg) :
    (handle_msg dev st (.RenderAnimationFrame ts)).state.frame_count = st.frame_count + 1
    ∧ (handle_msg dev st (.RenderAnimationFrame ts)).state.device =
        (dev.wait_for_animation_frame (dev.render_animation_frame st.device)).1
    ∧ (handle_msg dev st (.RenderAnimationFrame ts)).frames =
        (dev.wait_for_animation_frame (dev.render_animation_frame st.device)).2.toList
    ∧ (handle_msg dev st (.RenderAnimationFrame ts)).cont =
        (dev.wait_for_animation_frame (dev.render_animation_frame st.device)).2.isSome
    ∧ (runMsgs dev st (.RenderAnimationFrame ts :: ms)).frames =
        (dev.wait_for_animation_frame (dev.render_animation_frame st.device)).2.toList ++
          (if (handle_msg dev st (.RenderAnimationFrame ts)).cont then
            (runMsgs dev (handle_msg dev st (.RenderAnimationFrame ts)).state ms).frames
          else []) := by
  have hfr : (handle_msg dev st (.RenderAnimationFrame ts)).frames =
      (dev.wait_for_animation_frame (dev.render_animation_frame st.device)).2.toList := by
    simp only [handle_msg]
    cases (dev.wait_for_animation_frame (dev.render_animation_frame st.device)).2 <;> simp
  refine ⟨?_, ?_, hfr, ?_, ?_⟩
  · simp only [handle_msg]
    cases (dev.wait_for_animation_frame (dev.render_animation_frame st.device)).2 <;> simp
  · simp only [handle_msg]
    cases (dev.wait_for_animation_frame (dev.render_animation_frame st.device)).2 <;> simp
  · simp only [handle_msg]
    cases (dev.wait_for_animation_frame (dev.render_animation_frame st.device)).2 <;> simp
  · rw [runMsgs_cons_frames, hfr]

theorem runMsgs_quit_truncates {σ : Type} (dev : DeviceAPI σ) :
    ∀ (pre : List SessionMsg) (st : SessionThread σ) (post : List SessionMsg),
      runMsgs dev st (pre ++ SessionMsg.Quit :: post) =
        runMsgs dev st (pre ++ [SessionMsg.Quit])
  | [], st, post => rfl
  | p :: pre, st, post => by
    simp only [List.cons_append, runMsgs]
    cases h : (handle_msg dev st p).cont <;>
      simp [h, runMsgs_quit_truncates dev pre (handle_msg dev st p).state post]

theorem rofLoop_guard_false {σ : Type} (dev : DeviceAPI σ) (fc0 : Nat)
    (q : List SessionMsg) (st : SessionThread σ)
    (h : (fc0 == st.frame_count && st.running) = false) :
    rofLoop dev fc0 q st = ⟨st, [], q⟩ := by
  cases q <;> simp [rofLoop, h]

theorem rofLoop_nil {σ : Type} (dev : DeviceAPI σ) (fc0 : Nat)
    (st : SessionThread σ) :
    rofLoop dev fc0 [] st = ⟨st, [], []⟩ := by
  simp only [rofLoop]
  split <;> rfl

theorem rofLoop_quit_head {σ : Type} (dev : DeviceAPI σ) (fc0 : Nat)
    (st : SessionThread σ) (post : List SessionMsg)
    (hg : (fc0 == st.frame_count && st.running) = true) :
    rofLoop dev fc0 (SessionMsg.Quit :: post) st =
      ⟨{ st with device := dev.quit st.device, running := false }, [], post⟩ := by
  simp only [rofLoop, hg, if_true, handle_msg]
  rw [rofLoop_guard_false dev fc0 post _ (by simp)]
  rfl

theorem rofLoop_quit_truncates {σ : Type} (dev : DeviceAPI σ) (fc0 : Nat) :
    ∀ (pre : List SessionMsg) (st : SessionThread σ) (post : List SessionMsg),
      (rofLoop dev fc0 (pre ++ SessionMsg.Quit :: post) st).state =
        (rofLoop dev fc0 (pre ++ [SessionMsg.Quit]) st).state
      ∧ (rofLoop dev fc0 (pre ++ SessionMsg.Quit :: post) st).frames =
        (rofLoop dev fc0 (pre ++ [SessionMsg.Quit]) st).frames
  | [], st, post => by
    by_cases hg : (fc0 == st.frame_count && st.running) = true
    · rw [List.nil_append, List.nil_append, rofLoop_quit_head dev fc0 st post hg,
        rofLoop_quit_head dev fc0 st [] hg]
      exact ⟨rfl, rfl⟩
    · rw [List.nil_append, List.nil_append,
        rofLoop_guard_false dev fc0 _ st (by simpa using hg),
        rofLoop_guard_false dev fc0 _ st (by simpa using hg)]
      exact ⟨rfl, rfl⟩
  | p :: pre, st, post => by
    by_cases hg : (fc0 == st.frame_count && st.running) = true
    · simp only [List.cons_append, rofLoop, hg, if_true]
      have ih := rofLoop_quit_truncates dev fc0 pre
        { (handle_msg dev st p).state with running := (handle_msg dev st p).cont } post
      exact ⟨ih.1, congrArg ((handle_msg dev st p).frames ++ ·) ih.2⟩
    · rw [List.cons_append, List.cons_append,
        rofLoop_guard_false dev fc0 _ st (by simpa using hg),
        rofLoop_guard_false dev fc0 _ st (by simpa using hg)]
      exact ⟨rfl, rfl⟩

/-- C3: once a `Quit` message is handled — in either execution mode — the
device's `quit` has been invoked, `handle_msg` signals termination and
`running` becomes `false`, the loop stops, and no frame is ever sent on the
output channel afterwards.  Dedicated loop: a run over any messages following
the `Quit` is identical to the run that ends at the `Quit`.  Main-thread
stepping: a tick reaching the `Quit` applies `device.quit`, ends with
`running = false` and emits nothing further (its state and frames equal those
of the tick truncated at the `Quit`), and every later tick on the
not-running thread returns immediately with no frames. -/
theorem quit_invokes_device_quit_and_terminates {σ : Type} (dev : DeviceAPI σ)
    (st : SessionThread σ) (pre post : List SessionMsg) (fc0 : Nat) :
    runMsgs dev st (pre ++ SessionMsg.Quit :: post) =
      runMsgs dev st (pre ++ [SessionMsg.Quit])
    ∧ handle_msg dev st SessionMsg.Quit =
        ⟨{ st with device := dev.quit st.device }, [], false⟩
    ∧ runMsgs dev st (SessionMsg.Quit :: post) =
        ⟨{ st with device := dev.quit st.device, running := false },
          [], LoopExit.stopped⟩
    ∧ (st.running = true →
        SessionThread.run_one_frame dev st (SessionMsg.Quit :: post) =
          ⟨{ st with device := dev.quit st.device, running := false }, [], post⟩)
    ∧ (rofLoop dev fc0 (pre ++ SessionMsg.Quit :: post) st).state =
        (rofLoop dev fc0 (pre ++ [SessionMsg.Quit]) st).state
    ∧ (rofLoop dev fc0 (pre ++ SessionMsg.Quit :: post) st).frames =
        (rofLoop dev fc0 (pre ++ [SessionMsg.Quit]) st).frames
    ∧ (st.running = false →
        SessionThread.run_one_frame dev st post = ⟨st, [], post⟩) := by
  refine ⟨runMsgs_quit_truncates dev pre st post, rfl, rfl, ?_,
    (rofLoop_quit_truncates dev fc0 pre st post).1,
    (rofLoop_quit_truncates dev fc0 pre st post).2, ?_⟩
  · intro hr
    exact rofLoop_quit_head dev st.frame_count st post (by simp [hr])
  · intro hr
    exact rofLoop_guard_false dev st.frame_count post st (by simp [hr])

theorem quit_invokes_device_quit_and_terminates_witness :
    SessionThread.run_one_frame unitDevice
        (SessionThread.new unitDevice () ⟨0⟩) [SessionMsg.Quit] =
      ⟨{ SessionThread.new unitDevice () ⟨0⟩ with
          device := unitDevice.quit (SessionThread.new unitDevice () ⟨0⟩).device,
          running := false }, [], []⟩ :=
  (quit_invokes_device_quit_and_terminates unitDevice
    (SessionThread.new unitDevice () ⟨0⟩) [] [] 0).2.2.2.1 rfl

theorem runMsgs_no_recvClosed {σ : Type} (dev : DeviceAPI σ) :
    ∀ (msgs : List SessionMsg) (st : SessionThread σ),
      st.holds_own_sender = true →
      (runMsgs dev st msgs).exit ≠ LoopExit.recvClosed
  | [], st, h => by simp [runMsgs, h]
  | m :: ms, st, h => by
    simp only [runMsgs]
    cases hc : (handle_msg dev st m).cont
    · simp
    · have : (handle_msg dev st m).state.holds_own_sender = true := by
        rw [handle_msg_holds]; exact h
      simpa using runMsgs_no_recvClosed dev ms (handle_msg dev st m).state this

/-- C9 (implicit): a `SessionThread` built by `new` keeps a clone of its own
control-channel sender, so the channel always has a live sender while the
thread exists; the receive-error exit of `run` is therefore unreachable, the
loop terminates only because `handle_msg` returned `false`, and in particular
with no message ever sent (all handles and quitters dropped without `Quit`)
the loop blocks forever instead of terminating. -/
theorem session_thread_keeps_own_sender {σ : Type} (dev : DeviceAPI σ)
    (st : SessionThread σ) (msgs : List SessionMsg)
    (h : st.holds_own_sender = true) :
    (runMsgs dev st msgs).exit ≠ LoopExit.recvClosed
    ∧ ((runMsgs dev st msgs).exit = LoopExit.stopped ∨
        (runMsgs dev st msgs).exit = LoopExit.blocked)
    ∧ runMsgs dev st [] = ⟨st, [], LoopExit.blocked⟩
    ∧ (∀ (device : σ) (id : SessionId),
        (SessionThread.new dev device id).holds_own_sender = true) := by
  refine ⟨runMsgs_no_recvClosed dev msgs st h, ?_, by simp [runMsgs, h], fun _ _ => rfl⟩
  cases hx : (runMsgs dev st msgs).exit
  · exact .inl rfl
  · exact absurd hx (runMsgs_no_recvClosed dev msgs st h)
  · exact .inr rfl

theorem session_thread_keeps_own_sender_witness :
    runMsgs unitDevice (SessionThread.new unitDevice () ⟨0⟩) [] =
      ⟨SessionThread.new unitDevice () ⟨0⟩, [], LoopExit.blocked⟩ :=
  (session_thread_keeps_own_sender unitDevice
    (SessionThread.new unitDevice () ⟨0⟩) [] rfl).2.2.1

theorem rofLoop_frame_bound {σ : Type} (dev : DeviceAPI σ) (fc0 : Nat) :
    ∀ (q : List SessionMsg) (st : SessionThread σ), st.frame_count = fc0 →
      fc0 ≤ (rofLoop dev fc0 q st).state.frame_count ∧
      (rofLoop dev fc0 q st).state.frame_count ≤ fc0 + 1
  | [], st, h => by
    rw [rofLoop_nil]
    exact ⟨h.ge, le_trans (le_of_eq h) (Nat.le_succ fc0)⟩
  | m :: ms, st, h => by
    by_cases hg : (fc0 == st.frame_count && st.running) = true
    · simp only [rofLoop, hg, if_true]
      rcases handle_msg_frame_count dev st m with h1 | h1
      · have h2 : ({ (handle_msg dev st m).state with
            running := (handle_msg dev st m).cont } : SessionThread σ).frame_count = fc0 := by
          simpa [h1] using h
        simpa using rofLoop_frame_bound dev fc0 ms _ h2
      · have h3 : (handle_msg dev st m).state.frame_count = fc0 + 1 := by
          rw [h1, h]
        have hne : (fc0 == ({ (handle_msg dev st m).state with
            running := (handle_msg dev st m).cont } : SessionThread σ).frame_count &&
            ({ (handle_msg dev st m).state with
              running := (handle_msg dev st m).cont } : SessionThread σ).running) = false := by
          simp [h3, Nat.ne_of_lt (Nat.lt_succ_self fc0)]
        rw [rofLoop_guard_false dev fc0 ms _ hne]
        exact ⟨le_trans (Nat.le_succ fc0) (le_of_eq h3.symm), le_of_eq h3⟩
    · rw [rofLoop_guard_false dev fc0 (m :: ms) st (by simpa using hg)]
      exact ⟨h.ge, le_trans (le_of_eq h) (Nat.le_succ fc0)⟩

/-- C6: one `run_one_frame` invocation on a main-thread-stepped session thread
advances `frame_count` by at most one; the receive loop returns at once when
the queue is empty (the timeout receive yields no message), when `running` is
false, and as soon as `frame_count` differs from its value at the loop's
entry. -/
theorem run_one_frame_advances_at_most_one {σ : Type} (dev : DeviceAPI σ)
    (st : SessionThread σ) (q : List SessionMsg) :
    st.frame_count ≤ (SessionThread.run_one_frame dev st q).state.frame_count
    ∧ (SessionThread.run_one_frame dev st q).state.frame_count ≤ st.frame_count + 1
    ∧ (q = [] → SessionThread.run_one_frame dev st q = ⟨st, [], []⟩)
    ∧ (st.running = false → SessionThread.run_one_frame dev st q = ⟨st, [], q⟩)
    ∧ (∀ (fc0 : Nat) (q' : List SessionMsg) (st' : SessionThread σ),
        fc0 ≠ st'.frame_count → rofLoop dev fc0 q' st' = ⟨st', [], q'⟩) := by
  have hb := rofLoop_frame_bound dev st.frame_count q st rfl
  refine ⟨hb.1, hb.2, ?_, ?_, ?_⟩
  · intro hq
    subst hq
    exact rofLoop_nil dev st.frame_count st
  · intro hr
    exact rofLoop_guard_false dev st.frame_count q st (by simp [hr])
  · intro fc0 q' st' hne
    exact rofLoop_guard_false dev fc0 q' st' (by simp [beq_eq_false_iff_ne.mpr hne])

theorem run_one_frame_advances_at_most_one_witness :
    SessionThread.run_one_frame unitDevice (SessionThread.new unitDevice () ⟨0⟩) [] =
      ⟨SessionThread.new unitDevice () ⟨0⟩, [], []⟩ :=
  (run_one_frame_advances_at_most_one unitDevice
    (SessionThread.new unitDevice () ⟨0⟩) []).2.2.1 rfl

theorem requestLoop_all_fail (mode : SessionMode) :
    ∀ ds : List Discovery,
      (∀ d ∈ ds, ∃ e, d.request_session mode = Except.error e) →
      requestLoop ds mode = Except.error Error.NoMatchingDevice
  | [], _ => rfl
  | d :: ds, h => by
    obtain ⟨e, he⟩ := h d (List.mem_cons_self d ds)
    simp only [requestLoop, he]
    exact requestLoop_all_fail mode ds (fun d' hd' => h d' (List.mem_cons_of_mem _ hd'))

theorem requestLoop_err_all_fail (mode : SessionMode) :
    ∀ ds : List Discovery,
      requestLoop ds mode = Except.error Error.NoMatchingDevice →
      ∀ d ∈ ds, ∃ e, d.request_session mode = Except.error e
  | [], _, d, hd => absurd hd (List.not_mem_nil d)
  | d :: ds, h, d', hd' => by
    rcases hq : d.request_session mode with e | s
    · rcases List.mem_cons.mp hd' with rfl | hmem
      · exact ⟨e, hq⟩
      · refine requestLoop_err_all_fail mode ds ?_ d' hmem
        simpa [requestLoop, hq] using h
    · rw [requestLoop, hq] at h
      exact absurd h (by simp)

theorem requestLoop_first_ok (mode : SessionMode) (s : Session) :
    ∀ (pre : List Discovery) (d : Discovery) (post : List Discovery),
      (∀ d' ∈ pre, ∃ e, d'.request_session mode = Except.error e) →
      d.request_session mode = Except.ok s →
      requestLoop (pre ++ d :: post) mode = Except.ok s
  | [], d, post, _, hd => by simp [requestLoop, hd]
  | p :: pre, d, post, hpre, hd => by
    obtain ⟨e, he⟩ := hpre p (List.mem_cons_self p pre)
    simp only [List.cons_append, requestLoop, he]
    exact requestLoop_first_ok mode s pre d post
      (fun d' hd' => hpre d' (List.mem_cons_of_mem _ hd')) hd

/-- C4: `request_session` tries the registered discoveries in list order,
returns the session of the first discovery whose `request_session` succeeds
(whatever follows it is never consulted and earlier failures are skipped),
and yields `NoMatchingDevice` exactly when every registered discovery
fails. -/
theorem request_session_first_success {τ : Type} (mode : SessionMode)
    (r : MainThreadRegistry τ) (pre post : List Discovery) (d : Discovery)
    (s : Session)
    (hpre : ∀ d' ∈ pre, ∃ e, d'.request_session mode = Except.error e)
    (hd : d.request_session mode = Except.ok s)
    (hr : r.discoveries = pre ++ d :: post) :
    r.request_session mode = Except.ok s
    ∧ ∀ ds : List Discovery,
        (requestLoop ds mode = Except.error Error.NoMatchingDevice ↔
          ∀ d' ∈ ds, ∃ e, d'.request_session mode = Except.error e) := by
  constructor
  · rw [MainThreadRegistry.request_session, hr]
    exact requestLoop_first_ok mode s pre d post hpre hd
  · intro ds
    exact ⟨requestLoop_err_all_fail mode ds, requestLoop_all_fail mode ds⟩

theorem request_session_first_success_witness :
    (MainThreadRegistry.mk [failDiscovery, okDiscovery] ([] : List Unit) []).request_session
        SessionMode.ImmersiveVR = Except.ok sampleSession :=
  (request_session_first_success SessionMode.ImmersiveVR
    (MainThreadRegistry.mk [failDiscovery, okDiscovery] ([] : List Unit) [])
    [failDiscovery] [] okDiscovery sampleSession
    (by
      intro d' hd'
      rw [List.mem_singleton] at hd'
      subst hd'
      exact ⟨Error.NoMatchingDevice, rfl⟩)
    rfl rfl).1

theorem simulateLoop_all_fail (init : MockDeviceInit) (ds : List Discovery) :
    ∀ ms : List MockDiscovery,
      (∀ m ∈ ms, ∃ e, m.simulate_device_connection init = Except.error e) →
      simulateLoop ms init ds = (Except.error Error.NoMatchingDevice, ds)
  | [], _ => rfl
  | m :: ms, h => by
    obtain ⟨e, he⟩ := h m (List.mem_cons_self m ms)
    simp only [simulateLoop, he]
    exact simulateLoop_all_fail init ds ms (fun m' hm' => h m' (List.mem_cons_of_mem _ hm'))

theorem simulateLoop_first_ok (init : MockDeviceInit) (ds : List Discovery)
    (d : Discovery) :
    ∀ (pre : List MockDiscovery) (m : MockDiscovery) (post : List MockDiscovery),
      (∀ m' ∈ pre, ∃ e, m'.simulate_device_connection init = Except.error e) →
      m.simulate_device_connection init = Except.ok d →
      simulateLoop (pre ++ m :: post) init ds = (Except.ok MockSender.mk, d :: ds)
  | [], m, post, _, hm => by simp [simulateLoop, hm]
  | p :: pre, m, post, hpre, hm => by
    obtain ⟨e, he⟩ := hpre p (List.mem_cons_self p pre)
    simp only [List.cons_append, simulateLoop, he]
    exact simulateLoop_first_ok init ds d pre m post
      (fun m' hm' => hpre m' (List.mem_cons_of_mem _ hm')) hm

/-- C5: when some registered mock discovery accepts the simulated connection,
the produced discovery is inserted at index 0 of the discovery list and a
control-channel sender is handed back, so a subsequent `request_session` for
a mode the mock satisfies is answered by the mock before any previously
registered discovery; when every mock refuses, the result is
`NoMatchingDevice` and the discovery list is unchanged. -/
theorem simulate_device_connection_inserts_front {τ : Type}
    (init : MockDeviceInit) (r : MainThreadRegistry τ)
    (pre post : List MockDiscovery) (m : MockDiscovery) (d : Discovery)
    (hpre : ∀ m' ∈ pre, ∃ e, m'.simulate_device_connection init = Except.error e)
    (hm : m.simulate_device_connection init = Except.ok d)
    (hr : r.mocks = pre ++ m :: post) :
    r.simulate_device_connection init =
      (Except.ok MockSender.mk, { r with discoveries := d :: r.discoveries })
    ∧ (∀ (mode : SessionMode) (s : Session), d.request_session mode = Except.ok s →
        requestLoop (d :: r.discoveries) mode = Except.ok s)
    ∧ (∀ ms : List MockDiscovery,
        (∀ m' ∈ ms, ∃ e, m'.simulate_device_connection init = Except.error e) →
        simulateLoop ms init r.discoveries =
          (Except.error Error.NoMatchingDevice, r.discoveries)) := by
  refine ⟨?_, ?_, simulateLoop_all_fail init r.discoveries⟩
  · rw [MainThreadRegistry.simulate_device_connection, hr,
      simulateLoop_first_ok init r.discoveries d pre m post hpre hm]
  · intro mode s hs
    simp [requestLoop, hs]

theorem simulate_device_connection_inserts_front_witness :
    (MainThreadRegistry.mk [failDiscovery] ([] : List Unit)
        [failMock, okMock]).simulate_device_connection ⟨0⟩ =
      (Except.ok MockSender.mk,
        MainThreadRegistry.mk [okDiscovery, failDiscovery] ([] : List Unit)
          [failMock, okMock]) :=
  (simulate_device_connection_inserts_front ⟨0⟩
    (MainThreadRegistry.mk [failDiscovery] ([] : List Unit) [failMock, okMock])
    [failMock] [] okMock okDiscovery
    (by
      intro m' hm'
      rw [List.mem_singleton] at hm'
      subst hm'
      exact ⟨Error.NoMatchingDevice, rfl⟩)
    rfl rfl).1

theorem stepSessions_eq_map {τ : Type} (api : MTSessionAPI τ) :
    ∀ ss : List τ, stepSessions api ss = ss.map api.run_one_frame
  | [] => rfl
  | s :: ss => by simp [stepSessions, stepSessions_eq_map api ss]

theorem retainList_eq_filter {τ : Type} (keep : τ → Bool) :
    ∀ ss : List τ, retainList keep ss = ss.filter keep
  | [] => rfl
  | s :: ss => by
    simp only [retainList, List.filter, retainList_eq_filter keep ss]
    cases keep s <;> simp

theorem drainList_length {τ : Type} :
    ∀ (q : List RegistryMsg) (r : MainThreadRegistry τ),
      (drainList r q).2.length = q.length
  | [], _ => rfl
  | m :: ms, r => by
    simp [drainList, drainList_length ms (r.handle_msg m).1]

/-- C7: a registry tick first drains and dispatches every pending request in
arrival order (one response per message), then steps each registered session
exactly once, and the retained session list is exactly the filter of the
stepped sessions on `running`, in order. -/
theorem registry_run_one_frame_steps_and_retains {τ : Type}
    (api : MTSessionAPI τ) (r : MainThreadRegistry τ)
    (queue : List RegistryMsg) :
    (MainThreadRegistry.run_one_frame api r queue).2 = (drainList r queue).2
    ∧ (MainThreadRegistry.run_one_frame api r queue).2.length = queue.length
    ∧ (MainThreadRegistry.run_one_frame api r queue).1.sessions =
        ((drainList r queue).1.sessions.map api.run_one_frame).filter api.running
    ∧ (MainThreadRegistry.run_one_frame api r queue).1.discoveries =
        (drainList r queue).1.discoveries
    ∧ (MainThreadRegistry.run_one_frame api r queue).1.mocks =
        (drainList r queue).1.mocks := by
  refine ⟨rfl, drainList_length queue r, ?_, rfl, rfl⟩
  show retainList (fun s => api.running s) (stepSessions api (drainList r queue).1.sessions) = _
  rw [retainList_eq_filter, stepSessions_eq_map]

/-- Specification-side: the default-granted feature names for a mode (spec §3
invariants): `"viewer"` always, `"local"` for every non-Inline mode. -/
def specDefaults (mode : SessionMode) : List String :=
  if mode = SessionMode.Inline then ["viewer"] else ["viewer", "local"]

/-- C8 counterexample: at mode Inline with required `["viewer"]`, optional
`[]` and supported `[]`, validation succeeds with granted `["viewer"]`, and
that granted list IS a superset of {requested features ∪ default-granted
names} (the two sets coincide), so "never a superset" fails as stated. -/
theorem granted_features_superset_counterexample :
    (SessionInit.mk ["viewer"] []).validate SessionMode.Inline [] =
      Except.ok ["viewer"]
    ∧ ∀ f ∈ (SessionInit.mk ["viewer"] []).required_features ++
          (SessionInit.mk ["viewer"] []).optional_features ++
          specDefaults SessionMode.Inline,
        f ∈ (["viewer"] : List String) := by
  exact ⟨rfl, by decide⟩

theorem grantedOptionalLoop_subset (mode : SessionMode) (supported : List String) :
    ∀ fs : List String, ∀ f ∈ grantedOptionalLoop mode supported fs, f ∈ fs
  | f :: rest, g, hg => by
    by_cases hc : (f == "viewer" || (f == "local" && mode != SessionMode.Inline)
        || supported.contains f) = true
    · rw [grantedOptionalLoop, if_pos hc] at hg
      rcases List.mem_cons.mp hg with rfl | hmem
      · exact List.mem_cons_self _ _
      · exact List.mem_cons_of_mem _ (grantedOptionalLoop_subset mode supported rest g hmem)
    · rw [grantedOptionalLoop, if_neg hc] at hg
      exact List.mem_cons_of_mem _ (grantedOptionalLoop_subset mode supported rest g hg)

/-- C8 amended: when validation succeeds, every granted feature is one of the
requested features (so the granted list is never a STRICT superset of
{requested ∪ defaults}), and the granted list is immutable on the session
handle: `apply_event` and every message-sending operation leave
`granted_features` unchanged. -/
theorem granted_features_subset_and_immutable (init : SessionInit)
    (mode : SessionMode) (supported granted : List String)
    (h : init.validate mode supported = Except.ok granted) :
    (∀ f ∈ granted, f ∈ init.required_features ++ init.optional_features)
    ∧ (∀ (s : Session) (e : FrameUpdateEvent),
        (s.apply_event e).granted_features = s.granted_features)
    ∧ (∀ s : Session,
        s.start_render_loop.1 = s ∧ s.end_session.1 = s ∧
        s.render_animation_frame.1 = s ∧
        (∀ dest, (s.set_event_dest dest).1 = s) ∧
        (∀ near far, (s.update_clip_planes near far).1 = s)) := by
  refine ⟨?_, ?_, ?_⟩
  · intro f hf
    rw [SessionInit.validate] at h
    rcases hv : validateRequiredLoop mode supported init.required_features with e | u
    · rw [hv] at h
      exact absurd h (by simp)
    · rw [hv] at h
      have hg : granted = init.required_features ++
          grantedOptionalLoop mode supported init.optional_features := by
        simpa using h.symm
      rw [hg] at hf
      rcases List.mem_append.mp hf with hmem | hmem
      · exact List.mem_append.mpr (.inl hmem)
      · exact List.mem_append.mpr
          (.inr (grantedOptionalLoop_subset mode supported init.optional_features f hmem))
  · intro s e
    cases e <;> rfl
  · intro s
    exact ⟨rfl, rfl, rfl, fun _ => rfl, fun _ _ => rfl⟩

theorem granted_features_subset_and_immutable_witness :
    "viewer" ∈ (["viewer"] : List String) ++ ["foo"] :=
  (granted_features_subset_and_immutable ⟨["viewer"], ["foo"]⟩
    SessionMode.Inline [] ["viewer"] rfl).1 "viewer" (List.mem_singleton.mpr rfl)

/-- C10 (implicit): `recommended_framebuffer_resolution` panics via `expect`
exactly when the cached resolution snapshot is absent (as when the device
reported none, e.g. for Inline sessions), and returns a size exactly when the
snapshot is present; a session built by `new_session` from a device reporting
no resolution panics on this call. -/
theorem recommended_framebuffer_resolution_expect {σ : Type} (s : Session)
    (dev : DeviceAPI σ) (t : SessionThread σ) :
    (s.resolution = none →
      s.recommended_framebuffer_resolution =
        PanicOr.panicked "Inline XR sessions should not construct a framebuffer")
    ∧ (∀ sz, s.recommended_framebuffer_resolution = PanicOr.value sz ↔
        s.resolution = some sz)
    ∧ (dev.recommended_framebuffer_resolution t.device = none →
        (SessionThread.new_session dev t).recommended_framebuffer_resolution =
          PanicOr.panicked "Inline XR sessions should not construct a framebuffer") := by
  refine ⟨?_, ?_, ?_⟩
  · intro h
    simp [Session.recommended_framebuffer_resolution, expectOption, h]
  · intro sz
    cases h : s.resolution <;>
      simp [Session.recommended_framebuffer_resolution, expectOption, h]
  · intro h
    simp [SessionThread.new_session, Session.recommended_framebuffer_resolution,
      expectOption, h]

theorem recommended_framebuffer_resolution_expect_witness :
    sampleSession.recommended_framebuffer_resolution =
      PanicOr.panicked "Inline XR sessions should not construct a framebuffer" :=
  (recommended_framebuffer_resolution_expect sampleSession unitDevice
    (SessionThread.new unitDevice () ⟨0⟩)).1 rfl

end WebXR
